import Mathlib

/-!
Verification development for the sensocto Python client library.

The definitions below are shallow embeddings of the code in
src/clients/python/sensocto (frame codec, socket, sensor stream, call
session, configuration) and src/simulator/python_phoenix_client.py
(simulator channel client).  Pure functions become Lean functions,
stateful methods become explicit state-passing functions, fallible
operations return Except/Option, and raised Python exceptions become
error values.
-/

namespace Sensocto

/-- Parsed JSON values.  JSON numbers are modelled as integers, which covers
every numeric value the verified claims exercise.  Objects are association
lists; the embedding of dict lookup is getKey below. -/
inductive JValue where
  | null
  | bool (b : Bool)
  | num (n : Int)
  | str (s : String)
  | arr (xs : List JValue)
  | obj (fields : List (String × JValue))

/-- Embedding of Python dict lookup (dict.get) on an association-list model
of a dictionary with string keys.  Python dicts have unique keys, so taking
the first match is faithful on any dict the source builds. -/
def getKey {α : Type} : List (String × α) → String → Option α
  | [], _ => none
  | (k2, v) :: rest, k => if k2 = k then some v else getKey rest k

/-- Decimal digits of a natural number, least significant first, computed
with structural fuel so that closed terms reduce inside the kernel. -/
def decDigitsAux : Nat → Nat → List Nat
  | 0, _ => []
  | _ + 1, 0 => []
  | fuel + 1, n + 1 => ((n + 1) % 10) :: decDigitsAux fuel ((n + 1) / 10)

/-- Decimal digits of a natural number, least significant first. -/
def decDigits (n : Nat) : List Nat := decDigitsAux n n

/-- Embedding of Python str(n) for a non-negative integer: the decimal
representation without sign or padding. -/
def decimalRepr (n : Nat) : String :=
  if n = 0 then "0" else ⟨(decDigits n).reverse.map Nat.digitChar⟩

/-- Numeric value of a decimal digit character. -/
def charToDigit (c : Char) : Nat := c.toNat - 48

/-- Value of a big-endian list of decimal digit characters, as computed by
Python int(s, 10). -/
def digitsToNat (cs : List Char) : Nat :=
  Nat.ofDigits 10 ((cs.map charToDigit).reverse)

/-- Embedding of Python str(n) for an arbitrary integer. -/
def intRepr (n : Int) : String :=
  if n < 0 then "-" ++ decimalRepr n.natAbs else decimalRepr n.natAbs

/-- The single-quote character used by Python repr for strings. -/
def quoteChar : String := String.singleton (Char.ofNat 39)

/-- A string wrapped in single quotes, as Python repr renders str values. -/
def quoteStr (s : String) : String := quoteChar ++ s ++ quoteChar

mutual

/-- Embedding of Python repr on parsed-JSON values, as interpolated by the
f-strings in the source (dicts print as key: value pairs in braces with
single-quoted strings, None/True/False for null and booleans). -/
def pyRepr : JValue → String
  | .null => "None"
  | .bool true => "True"
  | .bool false => "False"
  | .num n => intRepr n
  | .str s => quoteStr s
  | .arr xs => "[" ++ pyReprItems xs ++ "]"
  | .obj l => "\x7b" ++ pyReprFields l ++ "\x7d"

/-- Comma-separated Python repr of list items. -/
def pyReprItems : List JValue → String
  | [] => ""
  | [x] => pyRepr x
  | x :: y :: rest => pyRepr x ++ ", " ++ pyReprItems (y :: rest)

/-- Comma-separated Python repr of dict entries. -/
def pyReprFields : List (String × JValue) → String
  | [] => ""
  | [(k, v)] => quoteStr k ++ ": " ++ pyRepr v
  | (k, v) :: y :: rest => quoteStr k ++ ": " ++ pyRepr v ++ ", " ++ pyReprFields (y :: rest)

end

/-- Embedding of the PhoenixMessage dataclass from socket.py: a channel
frame with topic, event, arbitrary payload and nullable ref. -/
structure PhoenixMessage where
  topic : String
  event : String
  payload : JValue
  ref : Option String

/-- JSON value of the nullable ref field. -/
def refToJson : Option String → JValue
  | none => JValue.null
  | some s => JValue.str s

/-- Embedding of PhoenixMessage.to_json: serializes exactly the four keys
topic, event, payload, ref (in that order; JSON objects compare up to key
order). -/
def PhoenixMessage.toJson (m : PhoenixMessage) : JValue :=
  .obj [("topic", .str m.topic), ("event", .str m.event),
        ("payload", m.payload), ("ref", refToJson m.ref)]

/-- Reads a JSON value fetched with obj.get(key, "") into the str-typed
topic or event field of the dataclass: an absent key defaults to the empty
string; a present value must be a string to inhabit the declared field type
(well-formed frames always satisfy this). -/
def asFieldStr : Option JValue → Option String
  | none => some ""
  | some (.str s) => some s
  | some _ => none

/-- Reads a JSON value fetched with obj.get("ref") into the nullable-string
ref field: an absent key or JSON null becomes None, a string is kept. -/
def asFieldRef : Option JValue → Option (Option String)
  | none => some none
  | some .null => some none
  | some (.str s) => some (some s)
  | some _ => none

/-- Embedding of PhoenixMessage.from_json after JSON parsing: reads the
four fields with obj.get, defaulting topic and event to the empty string,
payload to the empty object, and ref to None.  Returns none on input that
is not a JSON object or whose fields cannot inhabit the declared dataclass
field types. -/
def fromJsonV : JValue → Option PhoenixMessage
  | .obj l =>
    match asFieldStr (getKey l "topic"), asFieldStr (getKey l "event"),
          asFieldRef (getKey l "ref") with
    | some t, some e, some r =>
      some ⟨t, e, (getKey l "payload").getD (.obj []), r⟩
    | _, _, _ => none
  | _ => none

/-- A well-formed frame: a JSON object whose fields are, in some order,
exactly a string topic, a string event, an arbitrary payload and a
string-or-null ref. -/
def WellFormedFrame (f : JValue) : Prop :=
  ∃ (l : List (String × JValue)) (t e : String) (p r : JValue),
    f = .obj l ∧
    (r = JValue.null ∨ ∃ s, r = JValue.str s) ∧
    l.Perm [("topic", .str t), ("event", .str e), ("payload", p), ("ref", r)]

/-- Embedding of the PhoenixReply dataclass: status string plus the server
response value. -/
structure PhoenixReply where
  status : String
  response : JValue

/-- Embedding of PhoenixReply.is_ok. -/
def PhoenixReply.isOk (r : PhoenixReply) : Bool := r.status = "ok"

/-- Embedding of the PhoenixSocket state relevant to ref allocation and
reply correlation: the _connected flag, the _ref_counter, and the
_pending_replies futures, split into the refs whose future is still
pending and the refs whose future already holds a result. -/
structure SocketState where
  connected : Bool
  refCounter : Nat
  pending : List String
  resolved : List (String × PhoenixReply)

/-- Embedding of PhoenixSocket.__init__: _connected is False, _ref_counter
is zero and no reply futures exist.  SensoctoClient.connect constructs a
fresh PhoenixSocket on every (re)connection, so every new transport starts
from this state. -/
def freshSocket : SocketState :=
  { connected := false, refCounter := 0, pending := [], resolved := [] }

/-- Embedding of PhoenixSocket._generate_ref: increments the counter and
returns its decimal representation together with the new counter value. -/
def generateRef (c : Nat) : String × Nat := (decimalRepr (c + 1), c + 1)

/-- Counter value of the socket after n calls to _generate_ref on a fresh
socket. -/
def counterAfter : Nat → Nat
  | 0 => freshSocket.refCounter
  | n + 1 => (generateRef (counterAfter n)).2

/-- The ref string returned by the (n+1)-st call to _generate_ref on a
fresh socket. -/
def nthRef (n : Nat) : String := (generateRef (counterAfter n)).1

/-- Embedding of the reply construction in PhoenixSocket._handle_message:
payload.get with defaults status "error" and response the empty object.
A status value that is not a string cannot inhabit the str-typed status
field; such payloads do not occur on well-formed replies. -/
def parseReply (payload : JValue) : PhoenixReply :=
  match payload with
  | .obj l =>
    { status := match getKey l "status" with
        | some (.str s) => s
        | _ => "error"
      response := (getKey l "response").getD (.obj []) }
  | _ => { status := "error", response := .obj [] }

/-- Embedding of PhoenixSocket._handle_message restricted to the socket
state: a phx_reply frame with a truthy ref that matches a pending,
not-yet-done future resolves that future with the parsed reply; every
other frame only invokes subscriber callbacks and leaves the socket state
unchanged. -/
def handleMessage (s : SocketState) (m : PhoenixMessage) : SocketState :=
  match m.ref with
  | some r =>
    if m.event = "phx_reply" ∧ r ≠ "" then
      if r ∈ s.pending ∧ (getKey s.resolved r).isNone then
        { s with pending := s.pending.erase r,
                 resolved := (r, parseReply m.payload) :: s.resolved }
      else s
    else s
  | none => s

/-- Events observed by the socket while an awaiter is outstanding: an
inbound frame handled by _receive_loop, or loss of the transport
(websockets.ConnectionClosed terminating the receive loop). -/
inductive SockEvent where
  | incoming (m : PhoenixMessage)
  | connClosed

/-- Embedding of the _receive_loop event handling: an inbound frame goes
through _handle_message; on ConnectionClosed the loop only sets _connected
to False — the pending reply futures are not touched. -/
def handleEvent (s : SocketState) : SockEvent → SocketState
  | .incoming m => handleMessage s m
  | .connClosed => { s with connected := false }

/-- Final socket state after a sequence of receive-loop events. -/
def runEvents (s : SocketState) (evs : List SockEvent) : SocketState :=
  evs.foldl handleEvent s

/-- Possible outcomes of PhoenixSocket.send awaiting the reply future:
the future is resolved by a matching reply, or asyncio.wait_for elapses and
send raises TimeoutError carrying the timeout in milliseconds.  The
disconnected outcome expresses the specification's DisconnectedError and
is part of the outcome type so that the claim about transport loss can be
stated. -/
inductive SendOutcome where
  | reply (r : PhoenixReply)
  | timedOut (timeoutMs : Nat)
  | disconnected

/-- Outcome of the await in PhoenixSocket.send for the ref r when the
events evs are delivered to the receive loop before the deadline: if some
event resolved the future the reply is returned, otherwise the await
elapses into TimeoutError(timeoutMs).  Nothing in the socket produces the
disconnected outcome. -/
def awaitOutcome (s : SocketState) (r : String) (timeoutMs : Nat)
    (evs : List SockEvent) : SendOutcome :=
  match getKey (runEvents s evs).resolved r with
  | some rep => .reply rep
  | none => .timedOut timeoutMs

/-- Splits a character list at the first occurrence of the separator,
returning the parts before and after it; none when the separator does not
occur.  This is the list-level reading of Python str.partition. -/
def splitFirst : Char → List Char → Option (List Char × List Char)
  | _, [] => none
  | sep, c :: rest =>
    if c = sep then some ([], rest)
    else match splitFirst sep rest with
      | some (pre, post) => some (c :: pre, post)
      | none => none

/-- Decimal digit character test, matching str.isdigit on ASCII digits. -/
def isDigitChar (c : Char) : Bool := decide ('0' ≤ c) && decide (c ≤ '9')

/-- The scheme, hostname and optional port of a parsed URL, as read from
urllib.parse.urlparse by SensoctoConfig.websocket_url. -/
structure UrlParts where
  scheme : String
  host : String
  port : Option Nat

/-- Lower-cases every character of a string with Char.toLower, as str.lower
does on the ASCII URLs in scope. -/
def lowerString (s : String) : String := ⟨s.data.map Char.toLower⟩

/-- Splits a netloc into the lower-cased hostname and optional port, the
way urlparse's hostname and port properties read it: the hostname is
everything before the first colon, lower-cased; the port is the decimal
value of the digits after that colon, absent when there is no colon or
nothing follows it, and must lie in 0..65535 (urlparse.port raises
otherwise; such netlocs, and empty hostnames, are mapped to none). -/
def parseNetloc (schemeCs netloc : List Char) : Option UrlParts :=
  match splitFirst ':' netloc with
  | none =>
    if netloc.isEmpty then none
    else some ⟨lowerString ⟨schemeCs⟩, lowerString ⟨netloc⟩, none⟩
  | some (hostCs, portCs) =>
    if hostCs.isEmpty then none
    else if portCs.isEmpty then
      some ⟨lowerString ⟨schemeCs⟩, lowerString ⟨hostCs⟩, none⟩
    else if portCs.all isDigitChar && digitsToNat portCs ≤ 65535 then
      some ⟨lowerString ⟨schemeCs⟩, lowerString ⟨hostCs⟩, some (digitsToNat portCs)⟩
    else none

/-- Models urllib.parse.urlparse for URLs of the shape
scheme://host[:port][/...]: per the urllib documentation the scheme and the
hostname are reported lower-cased; the netloc ends at the first slash and
is split by parseNetloc.  URLs without :// after the scheme are mapped to
none. -/
def parseServerUrl (s : String) : Option UrlParts :=
  match splitFirst ':' s.data with
  | none => none
  | some (schemeCs, rest) =>
    match rest with
    | c1 :: c2 :: rest2 =>
      if c1 = '/' ∧ c2 = '/' then
        parseNetloc schemeCs (rest2.takeWhile (fun c => c ≠ '/'))
      else none
    | _ => none

/-- Embedding of SensoctoConfig.websocket_url: wss when the scheme is
https and ws otherwise, the parsed hostname, the port when present and
truthy (a port of 0 is falsy in Python and is dropped), and the fixed path
/socket/websocket. -/
def websocketUrl (serverUrl : String) : Option String :=
  match parseServerUrl serverUrl with
  | none => none
  | some parts =>
    let protocol := if parts.scheme = "https" then "wss" else "ws"
    let portStr := match parts.port with
      | some p => if p ≠ 0 then ":" ++ decimalRepr p else ""
      | none => ""
    some (protocol ++ "://" ++ parts.host ++ portStr ++ "/socket/websocket")

/-- Embedding of the AttentionLevel enum from models.py. -/
inductive AttentionLevel where
  | none
  | low
  | medium
  | high
deriving DecidableEq

/-- Embedding of AttentionLevel(value): the enum member for a known value,
raising ValueError — caught by the caller and turned into NONE — on any
other string. -/
def attentionOfString (s : String) : AttentionLevel :=
  if s = "none" then .none
  else if s = "low" then .low
  else if s = "medium" then .medium
  else if s = "high" then .high
  else .none

/-- Embedding of the BackpressureConfig pydantic model from models.py with
its field defaults. -/
structure BackpressureConfig where
  attention_level : AttentionLevel := .none
  recommended_batch_window : Int := 500
  recommended_batch_size : Int := 5
  timestamp : Int := 0
deriving DecidableEq

/-- The BackpressureConfig() value constructed in SensorStream.__init__. -/
def defaultBackpressure : BackpressureConfig := {}

/-- Reads an integer field fetched with payload.get(key, default).  The
claims only exercise integer-valued fields; a present non-integer value
would make the pydantic model raise and is outside the modelled domain. -/
def intOfJson (v : Option JValue) (d : Int) : Int :=
  match v with
  | some (.num n) => n
  | _ => d

/-- Embedding of BackpressureConfig.from_payload: attention_level defaults
to none and falls back to NONE on an unknown value (the ValueError branch);
the window, size and timestamp fields default to 500, 5 and 0. -/
def BackpressureConfig.fromPayload (payload : JValue) : BackpressureConfig :=
  match payload with
  | .obj l =>
    { attention_level :=
        match getKey l "attention_level" with
        | some (.str s) => attentionOfString s
        | some _ => .none
        | Option.none => .none
      recommended_batch_window := intOfJson (getKey l "recommended_batch_window") 500
      recommended_batch_size := intOfJson (getKey l "recommended_batch_size") 5
      timestamp := intOfJson (getKey l "timestamp") 0 }
  | _ => {}

/-- Embedding of the simulator's BackpressureConfig class from
python_phoenix_client.py with its constructor defaults. -/
structure SimBackpressureConfig where
  attention_level : String := "none"
  batch_window_ms : Int := 5000
  batch_size : Int := 20
  timestamp : Int := 0
deriving DecidableEq

/-- The simulator BackpressureConfig() constructor value. -/
def simDefaultBackpressure : SimBackpressureConfig := {}

/-- Reads a string field fetched with config.get(key, current). -/
def strOfJson (v : Option JValue) (d : String) : String :=
  match v with
  | some (.str s) => s
  | _ => d

/-- Embedding of the simulator BackpressureConfig.update: each field is
config.get(key, current value), so present keys supersede the stored value
and absent keys keep it; the timestamp defaults to the current wall clock,
passed in as nowMs. -/
def simUpdate (c : SimBackpressureConfig) (config : JValue) (nowMs : Int) :
    SimBackpressureConfig :=
  match config with
  | .obj l =>
    { attention_level := strOfJson (getKey l "attention_level") c.attention_level
      batch_window_ms := intOfJson (getKey l "recommended_batch_window") c.batch_window_ms
      batch_size := intOfJson (getKey l "recommended_batch_size") c.batch_size
      timestamp := intOfJson (getKey l "timestamp") nowMs }
  | _ => { c with timestamp := nowMs }

/-- Exceptions raised by the client, one constructor per error class in
errors.py that the claims mention, plus exc for a plain Python Exception
carrying only a message (as SensorStream.join raises). -/
inductive SensErr where
  | disconnected
  | invalidAttributeId (attributeId : String) (reason : String)
  | channelJoin (topic : String) (reason : String)
  | timeout (timeoutMs : Nat)
  | exc (message : String)
deriving DecidableEq

/-- ASCII letter test for the leading character of the attribute-id
pattern. -/
def isAsciiLetter (c : Char) : Bool :=
  (decide ('a' ≤ c) && decide (c ≤ 'z')) || (decide ('A' ≤ c) && decide (c ≤ 'Z'))

/-- Character class [a-zA-Z0-9_-] of the attribute-id pattern. -/
def isIdentChar (c : Char) : Bool :=
  isAsciiLetter c || isDigitChar c || decide (c = '_') || decide (c = '-')

/-- Full match of the regular language of the attribute-id pattern
[a-zA-Z][a-zA-Z0-9_-] with at most 63 trailing characters: a leading ASCII
letter followed by up to 63 identifier characters, and nothing else. -/
def regexCoreMatch : List Char → Bool
  | [] => false
  | c :: rest => isAsciiLetter c && decide (rest.length ≤ 63) && rest.all isIdentChar

/-- Embedding of re.match with the anchored ATTRIBUTE_ID_PATTERN under
Python semantics: in non-multiline mode the dollar anchor matches at the
end of the string or just before a newline that ends the string, so a
string is accepted exactly when it matches the pattern outright or when it
is a pattern match followed by one final newline character. -/
def pyRegexMatch (s : String) : Bool :=
  regexCoreMatch s.data ||
  (match s.data.getLast? with
   | some c => decide (c = '\n') && regexCoreMatch s.data.dropLast
   | none => false)

/-- Embedding of validate_attribute_id from sensor.py: empty ids, ids
longer than 64 characters and ids rejected by the regex raise
InvalidAttributeIdError carrying the offending id and a reason. -/
def validateAttributeId (s : String) : Except SensErr Unit :=
  if s.isEmpty then
    .error (.invalidAttributeId s "Attribute ID cannot be empty")
  else if s.length > 64 then
    .error (.invalidAttributeId s "Attribute ID cannot exceed 64 characters")
  else if !pyRegexMatch s then
    .error (.invalidAttributeId s
      ("Attribute ID must start with a letter and contain only " ++
       "alphanumeric characters, underscores, or hyphens"))
  else .ok ()

/-- Embedding of the Measurement model: validated attribute id, JSON
payload and timestamp in milliseconds. -/
structure Measurement where
  attribute_id : String
  payload : JValue
  timestamp : Int

/-- The measurement dict built by _flush_batch_internal and
send_measurement. -/
def encodeMeasurement (m : Measurement) : JValue :=
  .obj [("attribute_id", .str m.attribute_id), ("payload", m.payload),
        ("timestamp", .num m.timestamp)]

/-- A one-way frame written with send_no_reply: topic, event and payload
(send_no_reply also attaches a freshly allocated throwaway ref, modelled
with the socket's ref allocator). -/
structure Emission where
  topic : String
  event : String
  payload : JValue

/-- Embedding of the SensorStream state: its topic, the _joined flag, the
owning socket's is_connected bit, the current _backpressure configuration
and the _batch_buffer contents in enqueue order. -/
structure StreamState where
  topic : String
  joined : Bool
  socketConnected : Bool
  backpressure : BackpressureConfig
  buffer : List Measurement

/-- Embedding of SensorStream.__init__ followed by the socket's connection
bit: _joined is False, the buffer is empty and _backpressure is the
default BackpressureConfig(). -/
def initStream (topic : String) (socketConnected : Bool) : StreamState :=
  { topic := topic, joined := false, socketConnected := socketConnected,
    backpressure := defaultBackpressure, buffer := [] }

/-- Embedding of SensorStream.is_active: joined and the socket connected. -/
def isActive (s : StreamState) : Bool := s.joined && s.socketConnected

/-- Embedding of SensorStream._flush_batch_internal: an empty buffer emits
nothing; otherwise the buffer is drained and a single measurements_batch
frame carries the encoded measurements in enqueue order. -/
def flushBatchInternal (s : StreamState) : StreamState × List Emission :=
  if s.buffer.isEmpty then (s, [])
  else ({ s with buffer := [] },
        [⟨s.topic, "measurements_batch", .arr (s.buffer.map encodeMeasurement)⟩])

/-- Embedding of SensorStream.flush_batch: takes the batch lock and calls
_flush_batch_internal. -/
def flushBatch (s : StreamState) : StreamState × List Emission :=
  flushBatchInternal s

/-- Embedding of SensorStream.send_measurement: raises DisconnectedError
when the stream is not active, then validates the attribute id, fills the
timestamp with the current wall clock nowMs when omitted, and emits a
one-way measurement frame. -/
def sendMeasurement (s : StreamState) (attributeId : String) (payload : JValue)
    (timestamp : Option Int) (nowMs : Int) :
    Except SensErr (StreamState × List Emission) :=
  if !isActive s then .error .disconnected
  else match validateAttributeId attributeId with
    | .error e => .error e
    | .ok _ =>
      let t := timestamp.getD nowMs
      .ok (s, [⟨s.topic, "measurement",
        .obj [("attribute_id", .str attributeId), ("payload", payload),
              ("timestamp", .num t)]⟩])

/-- Embedding of SensorStream.add_to_batch: raises DisconnectedError when
the stream is not active, validates the attribute id, appends the
measurement to the buffer under the batch lock and flushes immediately
when the buffer has reached the backpressure-recommended batch size. -/
def addToBatch (s : StreamState) (attributeId : String) (payload : JValue)
    (timestamp : Option Int) (nowMs : Int) :
    Except SensErr (StreamState × List Emission) :=
  if !isActive s then .error .disconnected
  else match validateAttributeId attributeId with
    | .error e => .error e
    | .ok _ =>
      let m : Measurement := ⟨attributeId, payload, timestamp.getD nowMs⟩
      let s1 := { s with buffer := s.buffer ++ [m] }
      if (s1.buffer.length : Int) ≥ s1.backpressure.recommended_batch_size then
        .ok (flushBatchInternal s1)
      else .ok (s1, [])

/-- Embedding of SensorStream._handle_backpressure: replaces the stored
configuration with the one parsed from the server payload (the optional
user callback does not touch the stream state). -/
def handleBackpressure (s : StreamState) (payload : JValue) : StreamState :=
  { s with backpressure := BackpressureConfig.fromPayload payload }

/-- Embedding of SensorStream.join: on an ok reply the stream is marked
joined and the server response is returned; on any other reply the source
raises a plain Exception interpolating the response into the message
Failed to join channel. -/
def joinStream (s : StreamState) (reply : PhoenixReply) :
    Except SensErr (StreamState × JValue) :=
  if reply.isOk then .ok ({ s with joined := true }, reply.response)
  else .error (.exc ("Failed to join channel: " ++ pyRepr reply.response))

/-- Embedding of the simulator PhoenixChannelClient._flush_queue on a
non-empty queue of payloads: a single queued payload is pushed as a
measurement frame, two or more are pushed as one measurements_batch frame
carrying the payload array in queue order, and an empty queue pushes
nothing.  Queue entries are modelled by their payload field, the only one
_flush_queue reads. -/
def flushQueue (queue : List JValue) : List (String × JValue) :=
  match queue with
  | [] => []
  | [p] => [("measurement", p)]
  | p :: q :: rest => [("measurements_batch", .arr (p :: q :: rest))]

/-- Embedding of the CallSession state: the _joined flag, the _in_call
flag, the _endpoint_id and the _ice_servers value. -/
structure CallState where
  joined : Bool
  inCall : Bool
  endpointId : Option String
  iceServers : JValue

/-- Embedding of CallSession.__init__ as built by SensoctoClient.join_call:
not joined, not in a call, no endpoint, empty ice-server list. -/
def initCall : CallState :=
  { joined := false, inCall := false, endpointId := none, iceServers := .arr [] }

/-- Embedding of CallSession.join_channel: on an ok reply the session is
marked joined and ice_servers is replaced when the response carries that
key; otherwise a SensoctoError with the interpolated response is raised. -/
def joinChannel (s : CallState) (reply : PhoenixReply) :
    Except SensErr (CallState × JValue) :=
  if reply.isOk then
    let ice := match reply.response with
      | .obj l => (getKey l "ice_servers").getD s.iceServers
      | _ => s.iceServers
    .ok ({ s with joined := true, iceServers := ice }, reply.response)
  else .error (.exc ("Failed to join channel: " ++ pyRepr reply.response))

/-- Reads the endpoint_id field of a join_call response with
response.get("endpoint_id"): absent keys give None; the value is a string
on every reply the server sends. -/
def endpointOf (response : JValue) : Option String :=
  match response with
  | .obj l =>
    match getKey l "endpoint_id" with
    | some (.str s) => some s
    | _ => none
  | _ => none

/-- Embedding of CallSession.join_call: requires a joined channel, and on
an ok reply records _in_call and the endpoint_id from the response. -/
def joinCall (s : CallState) (reply : PhoenixReply) :
    Except SensErr (CallState × JValue) :=
  if !s.joined then .error (.exc "Channel not joined")
  else if reply.isOk then
    .ok ({ s with inCall := true, endpointId := endpointOf reply.response },
         reply.response)
  else .error (.exc ("Failed to join call: " ++ pyRepr reply.response))

/-- Embedding of CallSession.leave_call: a no-op when not in a call;
otherwise sends leave_call and clears _in_call and _endpoint_id. -/
def leaveCallState (s : CallState) : CallState :=
  if !s.inCall then s
  else { s with inCall := false, endpointId := none }

/-- Embedding of CallSession._on_call_ended: sets _in_call to False and
dispatches a CallEndedEvent; no other field is written. -/
def onCallEnded (s : CallState) : CallState :=
  { s with inCall := false }

/-! ### Concrete scenario inputs -/

/-- A measurement with the attribute id, payload and timestamp used in the
single-measurement flush scenario. -/
def c1Measurement : Measurement := ⟨"temp_outdoor-1", .num 1, 42⟩

/-- An active sensor stream whose batch buffer holds exactly one
measurement. -/
def c1Stream : StreamState :=
  { topic := "sensocto:sensor:s1", joined := true, socketConnected := true,
    backpressure := defaultBackpressure, buffer := [c1Measurement] }

/-- The same active stream with an empty batch buffer. -/
def c1Empty : StreamState := { c1Stream with buffer := [] }

/-- The backpressure_config payload of the step-down scenario: attention
level high with recommended window 100 ms and batch size 1. -/
def highPayload : JValue :=
  .obj [("attention_level", .str "high"), ("recommended_batch_window", .num 100),
        ("recommended_batch_size", .num 1), ("timestamp", .num 1111)]

/-- The server reply of the join-failure scenario. -/
def c4Reply : PhoenixReply := ⟨"error", .obj [("reason", .str "unauthorized")]⟩

/-- The ok reply of the call-lifecycle scenario carrying ice_servers. -/
def c5IceReply : PhoenixReply :=
  ⟨"ok", .obj [("ice_servers", .arr [.obj [("urls", .arr [.str "stun:example"])]])]⟩

/-- The ok reply of the join_call step carrying endpoint_id ep-7. -/
def c5CallReply : PhoenixReply := ⟨"ok", .obj [("endpoint_id", .str "ep-7")]⟩

/-- The call-session state after the successful join_channel step. -/
def c5State1 : CallState :=
  { joined := true, inCall := false, endpointId := none,
    iceServers := .arr [.obj [("urls", .arr [.str "stun:example"])]] }

/-- The call-session state after the successful join_call step. -/
def c5State2 : CallState := { c5State1 with inCall := true, endpointId := some "ep-7" }

/-- A well-formed frame, used to instantiate the codec round-trip. -/
def c9Frame : JValue :=
  .obj [("topic", .str "sensocto:sensor:s1"), ("event", .str "phx_reply"),
        ("payload", .obj [("status", .str "ok")]), ("ref", .str "1")]

/-! ### Helper lemmas -/

theorem decDigitsAux_eq (fuel : Nat) :
    ∀ n, n ≤ fuel → decDigitsAux fuel n = Nat.digits 10 n := by
  induction fuel with
  | zero =>
    intro n hn
    have hz : n = 0 := Nat.le_zero.mp hn
    subst hz
    simp [decDigitsAux]
  | succ fuel ih =>
    intro n hn
    match n with
    | 0 => simp [decDigitsAux]
    | m + 1 =>
      rw [Nat.digits_def' (by norm_num : (1 : Nat) < 10) (Nat.succ_pos m)]
      show ((m + 1) % 10) :: decDigitsAux fuel ((m + 1) / 10) = _
      have hdiv : (m + 1) / 10 ≤ fuel := by
        have := Nat.div_lt_self (Nat.succ_pos m) (by norm_num : 1 < 10)
        omega
      rw [ih _ hdiv]

theorem decDigits_eq (n : Nat) : decDigits n = Nat.digits 10 n :=
  decDigitsAux_eq n n (Nat.le_refl n)

theorem charToDigit_digitChar : ∀ d, d < 10 → charToDigit (Nat.digitChar d) = d := by
  decide

theorem digitsToNat_decimalRepr (n : Nat) : digitsToNat (decimalRepr n).data = n := by
  by_cases h : n = 0
  · subst h; decide
  · rw [decimalRepr, if_neg h]
    show digitsToNat ((decDigits n).reverse.map Nat.digitChar) = n
    rw [digitsToNat, List.map_map, List.map_congr_left (g := id) ?_, List.map_id,
      List.reverse_reverse, decDigits_eq, Nat.ofDigits_digits]
    intro d hd
    have hd10 : d < 10 := by
      rw [decDigits_eq] at hd
      exact Nat.digits_lt_base (by norm_num) (List.mem_reverse.mp hd)
    exact charToDigit_digitChar d hd10

theorem decimalRepr_injective {m n : Nat} (h : decimalRepr m = decimalRepr n) :
    m = n := by
  have hm := digitsToNat_decimalRepr m
  have hn := digitsToNat_decimalRepr n
  rw [h] at hm
  omega

theorem counterAfter_eq (n : Nat) : counterAfter n = n := by
  induction n with
  | zero => rfl
  | succ n ih =>
    show (generateRef (counterAfter n)).2 = n + 1
    rw [ih]
    rfl

/-! ### Claim theorems -/

/-- C8: within one connection the reference allocator returns the decimal
representation of a strictly increasing counter — every later allocation
yields a strictly larger counter value and all refs are pairwise distinct —
and a new transport starts from a fresh PhoenixSocket whose counter is
zero, so the first ref allocated on each new connection is "1". -/
theorem c8_ref_allocator :
    (∀ n, nthRef n = decimalRepr (n + 1)) ∧
    (∀ i j, i < j → (generateRef (counterAfter i)).2 < (generateRef (counterAfter j)).2) ∧
    (∀ i j, i ≠ j → nthRef i ≠ nthRef j) ∧
    freshSocket.refCounter = 0 ∧
    (generateRef freshSocket.refCounter).1 = "1" ∧
    nthRef 0 = "1" := by
  have hval : ∀ n, nthRef n = decimalRepr (n + 1) := by
    intro n
    show (generateRef (counterAfter n)).1 = _
    rw [counterAfter_eq]
    rfl
  refine ⟨hval, ?_, ?_, rfl, by decide, by decide⟩
  · intro i j hij
    show counterAfter i + 1 < counterAfter j + 1
    rw [counterAfter_eq, counterAfter_eq]
    omega
  · intro i j hne h
    rw [hval i, hval j] at h
    have := decimalRepr_injective h
    exact hne (by omega)

/-- Witness for c8_ref_allocator at the first two allocations. -/
theorem c8_witness :
    (0 : Nat) < 1 ∧ (0 : Nat) ≠ 1 ∧
    (generateRef (counterAfter 0)).2 < (generateRef (counterAfter 1)).2 ∧
    nthRef 0 ≠ nthRef 1 :=
  ⟨by decide, by decide, c8_ref_allocator.2.1 0 1 (by decide),
   c8_ref_allocator.2.2.1 0 1 (by decide)⟩

/-- C5 counterexample: in the call-lifecycle scenario — join_channel ok
with ice_servers, join_call ok with endpoint_id ep-7, then call_ended —
the handler clears in_call but the endpoint_id is still ep-7, not absent
as the claim states. -/
theorem c5_counterexample :
    joinChannel initCall c5IceReply = .ok (c5State1, c5IceReply.response) ∧
    joinCall c5State1 c5CallReply = .ok (c5State2, c5CallReply.response) ∧
    (onCallEnded c5State2).inCall = false ∧
    (onCallEnded c5State2).endpointId = some "ep-7" ∧
    (onCallEnded c5State2).endpointId ≠ none :=
  ⟨rfl, rfl, rfl, rfl, by decide⟩

/-- C5 (amended): a call_ended event forces in_call to false regardless of
the session's prior state, but it does not invalidate endpoint_id — the
field keeps its previous value, and is cleared only by leave_call (which
also clears it exactly when the session was in a call). -/
theorem c5_call_ended_amended :
    (∀ s : CallState, (onCallEnded s).inCall = false ∧
       (onCallEnded s).endpointId = s.endpointId ∧
       (onCallEnded s).joined = s.joined ∧
       (onCallEnded s).iceServers = s.iceServers) ∧
    (∀ s : CallState, (leaveCallState s).inCall = false ∧
       (leaveCallState s).endpointId = (if s.inCall then none else s.endpointId)) := by
  constructor
  · intro s
    exact ⟨rfl, rfl, rfl, rfl⟩
  · intro s
    by_cases h : s.inCall = true
    · simp [leaveCallState, h]
    · have h2 : s.inCall = false := by
        cases hb : s.inCall
        · rfl
        · exact absurd hb h
      simp [leaveCallState, h2]

/-- C10: a sensor stream that is not active fails send_measurement and
add_to_batch with DisconnectedError before the attribute id is looked at,
even when that id is invalid; consequently InvalidAttributeIdError is
raised only on an active stream. -/
theorem c10_connectivity_before_validation :
    (∀ (s : StreamState) (aid : String) (p : JValue) (ts : Option Int) (now : Int),
       isActive s = false →
       sendMeasurement s aid p ts now = .error .disconnected ∧
       addToBatch s aid p ts now = .error .disconnected) ∧
    (∀ (s : StreamState) (aid : String) (p : JValue) (ts : Option Int) (now : Int)
       (badId reason : String),
       sendMeasurement s aid p ts now = .error (.invalidAttributeId badId reason) →
       isActive s = true) ∧
    (∀ (s : StreamState) (aid : String) (p : JValue) (ts : Option Int) (now : Int)
       (badId reason : String),
       addToBatch s aid p ts now = .error (.invalidAttributeId badId reason) →
       isActive s = true) := by
  refine ⟨?_, ?_, ?_⟩
  · intro s aid p ts now h
    constructor
    · simp [sendMeasurement, h]
    · simp [addToBatch, h]
  · intro s aid p ts now badId reason h
    by_cases ha : isActive s = true
    · exact ha
    · have h2 : isActive s = false := by
        cases hb : isActive s
        · rfl
        · exact absurd hb ha
      simp [sendMeasurement, h2] at h
  · intro s aid p ts now badId reason h
    by_cases ha : isActive s = true
    · exact ha
    · have h2 : isActive s = false := by
        cases hb : isActive s
        · rfl
        · exact absurd hb ha
      simp [addToBatch, h2] at h

/-- Witness for c10_connectivity_before_validation on a never-joined
stream with a disconnected socket and an invalid attribute id. -/
theorem c10_witness :
    isActive (initStream "sensocto:sensor:s1" false) = false ∧
    sendMeasurement (initStream "sensocto:sensor:s1" false) "1bad" (.num 0) none 0 =
      .error .disconnected ∧
    addToBatch (initStream "sensocto:sensor:s1" false) "1bad" (.num 0) none 0 =
      .error .disconnected :=
  ⟨rfl,
   (c10_connectivity_before_validation.1 (initStream "sensocto:sensor:s1" false)
      "1bad" (.num 0) none 0 rfl).1,
   (c10_connectivity_before_validation.1 (initStream "sensocto:sensor:s1" false)
      "1bad" (.num 0) none 0 rfl).2⟩

/-- C1 counterexample: flushing an SDK sensor-stream buffer that holds
exactly one measurement emits a measurements_batch frame carrying a
one-element array, not the single measurement frame the claim states;
consequently add_to_batch(x) followed by flush_batch() on an initially
empty buffer differs from send_measurement(x) in the emitted event. -/
theorem c1_counterexample :
    (flushBatch c1Stream).2.map Emission.event = ["measurements_batch"] ∧
    (flushBatch c1Stream).2.map Emission.payload =
      [.arr [encodeMeasurement c1Measurement]] ∧
    addToBatch c1Empty "temp_outdoor-1" (.num 1) (some 42) 0 = .ok (c1Stream, []) ∧
    sendMeasurement c1Empty "temp_outdoor-1" (.num 1) (some 42) 0 =
      .ok (c1Empty,
        [⟨"sensocto:sensor:s1", "measurement", encodeMeasurement c1Measurement⟩]) ∧
    "measurements_batch" ≠ "measurement" :=
  ⟨rfl, rfl, rfl, rfl, by decide⟩

/-- C1 (amended): the SDK stream's flush emits no frame on an empty buffer
and exactly one measurements_batch frame — carrying every buffered
measurement in enqueue order — on any non-empty buffer, including a buffer
of length one; the simulator client's flush matches the claim, emitting a
measurement frame for one queued payload, one measurements_batch frame in
enqueue order for two or more, and nothing for an empty queue.  Hence the
claimed add_to_batch/send_measurement wire equivalence holds for the
simulator but not for the SDK stream, where the single-measurement flush
is wrapped in measurements_batch. -/
theorem c1_flush_behavior_amended :
    (∀ (t : String) (j c : Bool) (bp : BackpressureConfig) (m : Measurement)
       (rest : List Measurement),
       flushBatchInternal ⟨t, j, c, bp, m :: rest⟩ =
         (⟨t, j, c, bp, []⟩,
          [⟨t, "measurements_batch", .arr ((m :: rest).map encodeMeasurement)⟩])) ∧
    (∀ (t : String) (j c : Bool) (bp : BackpressureConfig),
       flushBatchInternal ⟨t, j, c, bp, []⟩ = (⟨t, j, c, bp, []⟩, [])) ∧
    flushQueue [] = [] ∧
    (∀ p, flushQueue [p] = [("measurement", p)]) ∧
    (∀ p q rest, flushQueue (p :: q :: rest) =
       [("measurements_batch", .arr (p :: q :: rest))]) :=
  ⟨fun _ _ _ _ _ _ => rfl, fun _ _ _ _ => rfl, rfl, fun _ => rfl, fun _ _ _ => rfl⟩

/-- C2 counterexample: a freshly created SDK sensor stream — before any
backpressure_config message — holds the BackpressureConfig defaults of
models.py, namely attention none, window 500 ms and batch size 5, not the
5000 ms and 20 the claim states. -/
theorem c2_counterexample :
    (initStream "sensocto:sensor:s1" true).backpressure.attention_level =
      AttentionLevel.none ∧
    (initStream "sensocto:sensor:s1" true).backpressure.recommended_batch_window = 500 ∧
    (initStream "sensocto:sensor:s1" true).backpressure.recommended_batch_size = 5 ∧
    ¬((initStream "sensocto:sensor:s1" true).backpressure.recommended_batch_window = 5000 ∧
      (initStream "sensocto:sensor:s1" true).backpressure.recommended_batch_size = 20) :=
  ⟨rfl, rfl, rfl, by decide⟩

/-- C2 (amended): before any backpressure_config message the SDK stream's
effective state is the models.py default, attention none with window
500 ms and batch size 5, while the simulator client's default is attention
none with window 5000 ms and batch size 20; in both clients a received
server configuration supersedes the defaults for subsequent batching
decisions — in particular, after the high/100ms/size-1 configuration an
add_to_batch on an empty buffer flushes immediately. -/
theorem c2_backpressure_defaults_amended :
    defaultBackpressure =
      { attention_level := .none, recommended_batch_window := 500,
        recommended_batch_size := 5, timestamp := 0 } ∧
    simDefaultBackpressure =
      { attention_level := "none", batch_window_ms := 5000,
        batch_size := 20, timestamp := 0 } ∧
    (∀ (s : StreamState) (payload : JValue),
       (handleBackpressure s payload).backpressure =
         BackpressureConfig.fromPayload payload) ∧
    BackpressureConfig.fromPayload highPayload =
      { attention_level := .high, recommended_batch_window := 100,
        recommended_batch_size := 1, timestamp := 1111 } ∧
    (∀ nowMs, simUpdate simDefaultBackpressure highPayload nowMs =
      { attention_level := "high", batch_window_ms := 100,
        batch_size := 1, timestamp := 1111 }) ∧
    addToBatch (handleBackpressure c1Empty highPayload)
        "temp_outdoor-1" (.num 1) (some 42) 0 =
      .ok ({ c1Empty with backpressure := BackpressureConfig.fromPayload highPayload },
           [⟨"sensocto:sensor:s1", "measurements_batch",
             .arr [encodeMeasurement c1Measurement]⟩]) :=
  ⟨rfl, rfl, fun _ _ => rfl, rfl, fun _ => rfl, rfl⟩

/-- C4 counterexample: when the server rejects the sensor-stream phx_join
for sensocto:sensor:s1 with status error and reason unauthorized, the join
raises a plain Exception with the interpolated response, not a
ChannelJoinError carrying a topic field. -/
theorem c4_counterexample :
    joinStream c1Empty c4Reply =
      .error (.exc ("Failed to join channel: " ++ pyRepr c4Reply.response)) ∧
    (∀ t r, joinStream c1Empty c4Reply ≠ .error (.channelJoin t r)) := by
  refine ⟨rfl, ?_⟩
  intro t r h
  rw [show joinStream c1Empty c4Reply =
        .error (.exc ("Failed to join channel: " ++ pyRepr c4Reply.response)) from rfl] at h
  simp at h

/-- C4 (amended): on any non-ok reply the sensor-stream join raises a
plain Exception whose message is Failed to join channel followed by the
repr of the server response — never a ChannelJoinError, so no structured
topic field is carried; for the unauthorized reply of the scenario the
message does contain the substring unauthorized. -/
theorem c4_join_error_amended :
    (∀ (s : StreamState) (reply : PhoenixReply), reply.status ≠ "ok" →
       joinStream s reply =
         .error (.exc ("Failed to join channel: " ++ pyRepr reply.response)) ∧
       (∀ t r, joinStream s reply ≠ .error (.channelJoin t r))) ∧
    "unauthorized".data <:+: ("Failed to join channel: " ++ pyRepr c4Reply.response).data := by
  constructor
  · intro s reply hstatus
    have hok : reply.isOk = false := by
      rw [PhoenixReply.isOk]
      exact decide_eq_false hstatus
    constructor
    · rw [joinStream, hok]
      rfl
    · intro t r h
      rw [joinStream, hok] at h
      simp at h
  · decide

/-- Witness for c4_join_error_amended at the unauthorized error reply. -/
theorem c4_witness :
    c4Reply.status ≠ "ok" ∧
    joinStream c1Empty c4Reply =
      .error (.exc ("Failed to join channel: " ++ pyRepr c4Reply.response)) :=
  ⟨by decide, (c4_join_error_amended.1 c1Empty c4Reply (by decide)).1⟩

/-- C6 counterexample: the id consisting of a letter followed by a newline
is not in the language of the anchored pattern, yet the Python validator
accepts it — re.match's dollar anchor also matches just before a final
newline — so send_measurement succeeds on it on an active stream, against
the claimed if-and-only-if. -/
theorem c6_counterexample :
    regexCoreMatch "a\n".data = false ∧
    validateAttributeId "a\n" = .ok () ∧
    sendMeasurement c1Empty "a\n" (.num 0) (some 1) 0 =
      .ok (c1Empty, [⟨"sensocto:sensor:s1", "measurement",
        .obj [("attribute_id", .str "a\n"), ("payload", .num 0),
              ("timestamp", .num 1)]⟩]) :=
  ⟨by decide, rfl, rfl⟩

/-- C6 (amended): on an active stream an attribute id is accepted exactly
when it matches the anchored pattern as Python's re interprets it: either
the whole id is in the language of the pattern, or the id is such a match
followed by one final newline (the dollar anchor matching just before it)
with the match at most 63 characters long so that the total length check
still passes.  In particular the id 1bad is rejected with
InvalidAttributeIdError carrying 1bad, and temp_outdoor-1 is accepted. -/
theorem c6_attribute_validation_amended :
    (∀ s : String, validateAttributeId s = .ok () ↔
       (regexCoreMatch s.data = true ∨
        ∃ core : List Char, s.data = core ++ ['\n'] ∧ regexCoreMatch core = true ∧
          core.length ≤ 63)) ∧
    (∃ reason, validateAttributeId "1bad" = .error (.invalidAttributeId "1bad" reason)) ∧
    validateAttributeId "temp_outdoor-1" = .ok () ∧
    (∀ (p : JValue) (ts : Option Int) (now : Int),
       ∃ reason, sendMeasurement c1Empty "1bad" p ts now =
         .error (.invalidAttributeId "1bad" reason)) ∧
    (∀ (p : JValue) (ts : Option Int) (now : Int),
       sendMeasurement c1Empty "temp_outdoor-1" p ts now =
         .ok (c1Empty, [⟨"sensocto:sensor:s1", "measurement",
           .obj [("attribute_id", .str "temp_outdoor-1"), ("payload", p),
                 ("timestamp", .num (ts.getD now))]⟩])) := by
  refine ⟨?_, ⟨_, rfl⟩, rfl, fun p ts now => ⟨_, rfl⟩, fun p ts now => rfl⟩
  intro s
  constructor
  · intro h
    rw [validateAttributeId] at h
    split_ifs at h with h1 h2 h3
    have hmatch : pyRegexMatch s = true := by
      rcases hb : pyRegexMatch s with _ | _
      · rw [hb] at h3; simp at h3
      · rfl
    rw [pyRegexMatch] at hmatch
    rcases Bool.or_eq_true_iff.mp hmatch with hA | hB
    · exact Or.inl hA
    · right
      cases hl : s.data.getLast? with
      | none => rw [hl] at hB; simp at hB
      | some c =>
        rw [hl] at hB
        simp only [Bool.and_eq_true, decide_eq_true_eq] at hB
        obtain ⟨hc, hcore⟩ := hB
        subst hc
        have hsplit : s.data.dropLast ++ [Char.ofNat 10] = s.data :=
          List.dropLast_append_getLast? _ (Option.mem_def.mpr hl)
        refine ⟨s.data.dropLast, hsplit.symm, hcore, ?_⟩
        have hlen : s.length ≤ 64 := by omega
        have hdlen : s.data.length = s.data.dropLast.length + 1 := by
          conv_lhs => rw [← hsplit]
          simp
        have hsl : s.length = s.data.length := rfl
        omega
  · intro h
    have hne : s.data ≠ [] := by
      rcases h with hA | ⟨core, hdecomp, _, _⟩
      · intro hnil
        rw [hnil] at hA
        simp [regexCoreMatch] at hA
      · intro hnil
        rw [hnil] at hdecomp
        exact absurd hdecomp.symm (List.append_ne_nil_of_right_ne_nil _ (by simp))
    have hnempty : s.isEmpty = false := by
      rcases hb : s.isEmpty with _ | _
      · rfl
      · exfalso
        have hs : s = "" := (String.isEmpty_iff s).mp hb
        rw [hs] at hne
        exact hne rfl
    have hlen64 : s.length ≤ 64 := by
      have hsl : s.length = s.data.length := rfl
      rcases h with hA | ⟨core, hdecomp, hcore, hlen63⟩
      · cases hd : s.data with
        | nil => exact absurd hd hne
        | cons c rest =>
          rw [hd] at hA
          simp only [regexCoreMatch, Bool.and_eq_true, decide_eq_true_eq] at hA
          rw [hsl, hd]
          simp only [List.length_cons]
          omega
      · rw [hsl, hdecomp]
        simp only [List.length_append, List.length_singleton]
        omega
    have hmatch : pyRegexMatch s = true := by
      rw [pyRegexMatch]
      rcases h with hA | ⟨core, hdecomp, hcore, _⟩
      · rw [hA]
        rfl
      · have hlast : s.data.getLast? = some (Char.ofNat 10) := by
          rw [hdecomp]
          exact List.getLast?_concat core
        have hdrop : s.data.dropLast = core := by
          rw [hdecomp]
          exact List.dropLast_concat
        rw [hlast, hdrop, hcore]
        simp
    rw [validateAttributeId, if_neg (by rw [hnempty]; exact Bool.false_ne_true),
      if_neg (by omega), if_neg (by rw [hmatch]; simp)]

/-- A receive-loop event that is not a phx_reply for the ref r leaves the
future of r unresolved; in particular transport loss touches no future. -/
theorem handleEvent_preserves_unresolved (s : SocketState) (r : String) (e : SockEvent)
    (hres : getKey s.resolved r = none)
    (hno : ∀ m, e = SockEvent.incoming m → ¬(m.event = "phx_reply" ∧ m.ref = some r)) :
    getKey (handleEvent s e).resolved r = none := by
  cases e with
  | connClosed => exact hres
  | incoming m =>
    show getKey (handleMessage s m).resolved r = none
    rw [handleMessage]
    cases hmr : m.ref with
    | none => exact hres
    | some r2 =>
      dsimp only
      split_ifs with h1 h2
      · show getKey ((r2, parseReply m.payload) :: s.resolved) r = none
        rw [getKey]
        have hr2 : r2 ≠ r := by
          intro he
          subst he
          exact hno m rfl ⟨h1.1, hmr⟩
        rw [if_neg hr2]
        exact hres
      · exact hres
      · exact hres

/-- C3 counterexample: with one outstanding awaiter for ref 1, losing the
transport (ConnectionClosed ending the receive loop) does not fail the
awaiter with Disconnected — the pending future survives untouched, only
the connected flag drops, and the await elapses into TimeoutError. -/
theorem c3_counterexample :
    awaitOutcome { connected := true, refCounter := 1, pending := ["1"], resolved := [] }
      "1" 10000 [SockEvent.connClosed] = .timedOut 10000 ∧
    (runEvents { connected := true, refCounter := 1, pending := ["1"], resolved := [] }
      [SockEvent.connClosed]).pending = ["1"] ∧
    (runEvents { connected := true, refCounter := 1, pending := ["1"], resolved := [] }
      [SockEvent.connClosed]).connected = false ∧
    SendOutcome.timedOut 10000 ≠ SendOutcome.disconnected :=
  ⟨rfl, rfl, rfl, fun h => nomatch h⟩

/-- C3 (amended): on transport loss the receive loop only clears the
connected flag; outstanding awaiters are not failed with Disconnected —
an awaiter whose ref never receives a matching phx_reply elapses into
TimeoutError carrying the timeout, whatever other events arrive.  The
socket itself makes no reconnection attempt. -/
theorem c3_transport_loss_amended :
    (∀ s : SocketState, handleEvent s .connClosed = { s with connected := false }) ∧
    (∀ (s : SocketState) (r : String) (t : Nat) (evs : List SockEvent),
       getKey s.resolved r = none →
       (∀ m, SockEvent.incoming m ∈ evs → ¬(m.event = "phx_reply" ∧ m.ref = some r)) →
       awaitOutcome s r t evs = .timedOut t) := by
  constructor
  · intro s
    rfl
  · intro s r t evs
    induction evs generalizing s with
    | nil =>
      intro hres _
      show (match getKey s.resolved r with
            | some rep => SendOutcome.reply rep
            | none => SendOutcome.timedOut t) = SendOutcome.timedOut t
      rw [hres]
    | cons e rest ih =>
      intro hres hno
      have step : getKey (handleEvent s e).resolved r = none :=
        handleEvent_preserves_unresolved s r e hres
          (fun m he => hno m (by rw [he]; exact List.mem_cons_self _ _))
      exact ih (handleEvent s e) step (fun m hm => hno m (List.mem_cons_of_mem _ hm))

/-- Witness for c3_transport_loss_amended: one pending awaiter, transport
lost, no reply ever arrives. -/
theorem c3_witness :
    getKey (SocketState.mk true 1 ["1"] []).resolved "1" = none ∧
    awaitOutcome (SocketState.mk true 1 ["1"] []) "1" 10000 [SockEvent.connClosed] =
      .timedOut 10000 :=
  ⟨rfl, c3_transport_loss_amended.2 (SocketState.mk true 1 ["1"] []) "1" 10000
    [SockEvent.connClosed] rfl (fun m hm => absurd hm (by simp))⟩

/-- Dict lookup is invariant under permutation of an association list whose
keys are distinct. -/
theorem getKey_perm {α : Type} {l1 l2 : List (String × α)} (p : l1.Perm l2) :
    (l1.map Prod.fst).Nodup → ∀ k, getKey l1 k = getKey l2 k := by
  induction p with
  | nil =>
    intro _ _
    rfl
  | cons x p ih =>
    intro nd k
    obtain ⟨x1, x2⟩ := x
    show (if x1 = k then some x2 else getKey _ k) =
         (if x1 = k then some x2 else getKey _ k)
    by_cases h : x1 = k
    · rw [if_pos h, if_pos h]
    · rw [if_neg h, if_neg h]
      simp only [List.map_cons, List.nodup_cons] at nd
      exact ih nd.2 k
  | swap x y l =>
    intro nd k
    obtain ⟨x1, x2⟩ := x
    obtain ⟨y1, y2⟩ := y
    have hxy : y1 ≠ x1 := by
      simp only [List.map_cons, List.nodup_cons, List.mem_cons] at nd
      exact fun h => nd.1 (Or.inl h)
    show (if y1 = k then some y2 else if x1 = k then some x2 else getKey l k) =
         (if x1 = k then some x2 else if y1 = k then some y2 else getKey l k)
    by_cases hy : y1 = k <;> by_cases hx : x1 = k
    · exact absurd (hy.trans hx.symm) hxy
    · rw [if_pos hy, if_neg hx, if_pos hy]
    · rw [if_neg hy, if_pos hx, if_pos hx]
    · rw [if_neg hy, if_neg hx, if_neg hx, if_neg hy]
  | trans p1 p2 ih1 ih2 =>
    intro nd k
    rw [ih1 nd k, ih2 ((p1.map Prod.fst).nodup_iff.mp nd) k]

/-- C9: decoding any well-formed frame succeeds, and re-encoding the result
yields the original frame up to the order of its four fields — the encoded
field list is a permutation of the original one. -/
theorem c9_roundtrip (f : JValue) (h : WellFormedFrame f) :
    ∃ (m : PhoenixMessage) (l l2 : List (String × JValue)),
      fromJsonV f = some m ∧ f = .obj l ∧ m.toJson = .obj l2 ∧ l2.Perm l := by
  obtain ⟨l, t, e, p, r, hf, hr, hperm⟩ := h
  subst hf
  have ndcanon : (([("topic", JValue.str t), ("event", .str e), ("payload", p),
      ("ref", r)]).map Prod.fst).Nodup := by
    show (["topic", "event", "payload", "ref"] : List String).Nodup
    decide
  have ndl : (l.map Prod.fst).Nodup := (hperm.map Prod.fst).nodup_iff.mpr ndcanon
  have hget : ∀ k, getKey l k = getKey [("topic", JValue.str t), ("event", .str e),
      ("payload", p), ("ref", r)] k := getKey_perm hperm ndl
  have hT : getKey l "topic" = some (.str t) := by rw [hget]; rfl
  have hE : getKey l "event" = some (.str e) := by rw [hget]; rfl
  have hP : getKey l "payload" = some p := by rw [hget]; rfl
  have hR : getKey l "ref" = some r := by rw [hget]; rfl
  rcases hr with hnull | ⟨sr, hstr⟩
  · subst hnull
    refine ⟨⟨t, e, p, none⟩, l,
      [("topic", .str t), ("event", .str e), ("payload", p), ("ref", .null)],
      ?_, rfl, rfl, hperm.symm⟩
    show (match asFieldStr (getKey l "topic"), asFieldStr (getKey l "event"),
          asFieldRef (getKey l "ref") with
          | some t2, some e2, some r2 =>
            some (⟨t2, e2, (getKey l "payload").getD (.obj []), r2⟩ : PhoenixMessage)
          | _, _, _ => none) = some ⟨t, e, p, none⟩
    rw [hT, hE, hR, hP]
    rfl
  · subst hstr
    refine ⟨⟨t, e, p, some sr⟩, l,
      [("topic", .str t), ("event", .str e), ("payload", p), ("ref", .str sr)],
      ?_, rfl, rfl, hperm.symm⟩
    show (match asFieldStr (getKey l "topic"), asFieldStr (getKey l "event"),
          asFieldRef (getKey l "ref") with
          | some t2, some e2, some r2 =>
            some (⟨t2, e2, (getKey l "payload").getD (.obj []), r2⟩ : PhoenixMessage)
          | _, _, _ => none) = some ⟨t, e, p, some sr⟩
    rw [hT, hE, hR, hP]
    rfl

theorem splitFirst_append {sep : Char} : ∀ (pre post : List Char), sep ∉ pre →
    splitFirst sep (pre ++ sep :: post) = some (pre, post) := by
  intro pre
  induction pre with
  | nil =>
    intro post _
    show splitFirst sep (sep :: post) = some ([], post)
    rw [splitFirst, if_pos rfl]
  | cons c rest ih =>
    intro post hmem
    have hc : c ≠ sep := fun h => hmem (h ▸ List.mem_cons_self c rest)
    show splitFirst sep (c :: (rest ++ sep :: post)) = some (c :: rest, post)
    rw [splitFirst, if_neg hc, ih post (fun h => hmem (List.mem_cons_of_mem c h))]

theorem splitFirst_eq_none {sep : Char} : ∀ l : List Char, sep ∉ l →
    splitFirst sep l = none := by
  intro l
  induction l with
  | nil =>
    intro _
    rfl
  | cons c rest ih =>
    intro hmem
    have hc : c ≠ sep := fun h => hmem (h ▸ List.mem_cons_self c rest)
    rw [splitFirst, if_neg hc, ih (fun h => hmem (List.mem_cons_of_mem c h))]

theorem digitChar_isDigit : ∀ d, d < 10 → isDigitChar (Nat.digitChar d) = true := by
  decide

theorem decimalRepr_all_digits (p : Nat) :
    ∀ c ∈ (decimalRepr p).data, isDigitChar c = true := by
  by_cases h : p = 0
  · subst h
    decide
  · rw [decimalRepr, if_neg h]
    intro c hc
    rw [show (⟨(decDigits p).reverse.map Nat.digitChar⟩ : String).data =
        (decDigits p).reverse.map Nat.digitChar from rfl] at hc
    rw [List.mem_map] at hc
    obtain ⟨d, hd, hdc⟩ := hc
    rw [List.mem_reverse, decDigits_eq] at hd
    subst hdc
    exact digitChar_isDigit d (Nat.digits_lt_base (by norm_num) hd)

theorem decimalRepr_ne_nil (p : Nat) : (decimalRepr p).data ≠ [] := by
  by_cases h : p = 0
  · subst h
    decide
  · rw [decimalRepr, if_neg h]
    show (decDigits p).reverse.map Nat.digitChar ≠ []
    rw [decDigits_eq]
    simp only [ne_eq, List.map_eq_nil_iff, List.reverse_eq_nil_iff]
    exact Nat.digits_ne_nil_iff_ne_zero.mpr h

theorem isDigitChar_ne (c : Char) (h : isDigitChar c = true) : c ≠ ':' ∧ c ≠ '/' := by
  constructor
  · intro he
    subst he
    exact absurd h (by decide)
  · intro he
    subst he
    exact absurd h (by decide)

theorem parseServerUrl_port (U : String) (schemeCs : List Char) (host : String) (p : Nat)
    (hsch : ':' ∉ schemeCs) (hne : host.data ≠ [])
    (hhost : ∀ c ∈ host.data, c ≠ ':' ∧ c ≠ '/') (hple : p ≤ 65535)
    (hU : U.data = schemeCs ++ ':' ::
      ('/' :: '/' :: (host.data ++ ':' :: (decimalRepr p).data))) :
    parseServerUrl U = some ⟨lowerString ⟨schemeCs⟩, lowerString host, some p⟩ := by
  rw [parseServerUrl, hU, splitFirst_append _ _ hsch]
  dsimp only
  rw [if_pos ⟨rfl, rfl⟩]
  have hnet : (host.data ++ ':' :: (decimalRepr p).data).takeWhile
      (fun c => decide (c ≠ '/')) = host.data ++ ':' :: (decimalRepr p).data := by
    rw [List.takeWhile_eq_self_iff]
    intro x hx
    simp only [decide_eq_true_eq]
    rcases List.mem_append.mp hx with hxh | hxt
    · exact (hhost x hxh).2
    · rcases List.mem_cons.mp hxt with hxc | hxd
      · subst hxc
        decide
      · exact (isDigitChar_ne x (decimalRepr_all_digits p x hxd)).2
  rw [hnet, parseNetloc, splitFirst_append _ _ (fun h => ((hhost ':' h).1) rfl)]
  dsimp only
  rw [if_neg (by simp [hne]), if_neg (by simp [decimalRepr_ne_nil p]),
    if_pos (by
      simp only [Bool.and_eq_true, List.all_eq_true, decide_eq_true_eq]
      exact ⟨fun c hc => decimalRepr_all_digits p c hc,
             by rw [digitsToNat_decimalRepr]; exact hple⟩)]
  rw [digitsToNat_decimalRepr]

theorem parseServerUrl_noport (U : String) (schemeCs : List Char) (host : String)
    (hsch : ':' ∉ schemeCs) (hne : host.data ≠ [])
    (hhost : ∀ c ∈ host.data, c ≠ ':' ∧ c ≠ '/')
    (hU : U.data = schemeCs ++ ':' :: ('/' :: '/' :: host.data)) :
    parseServerUrl U = some ⟨lowerString ⟨schemeCs⟩, lowerString host, none⟩ := by
  rw [parseServerUrl, hU, splitFirst_append _ _ hsch]
  dsimp only
  rw [if_pos ⟨rfl, rfl⟩]
  have hnet : host.data.takeWhile (fun c => decide (c ≠ '/')) = host.data := by
    rw [List.takeWhile_eq_self_iff]
    intro x hx
    simp only [decide_eq_true_eq]
    exact (hhost x hx).2
  rw [hnet, parseNetloc, splitFirst_eq_none _ (fun h => ((hhost ':' h).1) rfl)]
  dsimp only
  rw [if_neg (by simp [hne])]

/-- C7 counterexample: websocket_url lower-cases the hostname — for the
server_url with the upper-case host HOST.example the derived endpoint
carries host.example, so the host string is not preserved as the claim
states. -/
theorem c7_counterexample :
    websocketUrl "https://HOST.example:8443" =
      some "wss://host.example:8443/socket/websocket" ∧
    websocketUrl "https://HOST.example:8443" ≠
      some "wss://HOST.example:8443/socket/websocket" := by
  constructor
  · rfl
  · decide

/-- C7 (amended): for a server_url of the shape scheme://host[:port] with
scheme http or https, the derived endpoint maps http to ws and https to
wss, carries the host lower-cased (urlparse reports hostnames in lower
case; a host that is already lower-case is preserved verbatim), keeps the
optional port (any positive port up to 65535), and appends the path
/socket/websocket. -/
theorem c7_websocket_url_amended :
    (∀ (host : String) (p : Nat), host.data ≠ [] →
       (∀ c ∈ host.data, c ≠ ':' ∧ c ≠ '/') → 0 < p → p ≤ 65535 →
       websocketUrl ("https://" ++ host ++ ":" ++ decimalRepr p) =
         some ("wss://" ++ lowerString host ++ ":" ++ decimalRepr p ++
           "/socket/websocket") ∧
       websocketUrl ("http://" ++ host ++ ":" ++ decimalRepr p) =
         some ("ws://" ++ lowerString host ++ ":" ++ decimalRepr p ++
           "/socket/websocket")) ∧
    (∀ host : String, host.data ≠ [] → (∀ c ∈ host.data, c ≠ ':' ∧ c ≠ '/') →
       websocketUrl ("https://" ++ host) =
         some ("wss://" ++ lowerString host ++ "/socket/websocket") ∧
       websocketUrl ("http://" ++ host) =
         some ("ws://" ++ lowerString host ++ "/socket/websocket")) := by
  constructor
  · intro host p hne hhost hp0 hple
    constructor
    · have hU : ("https://" ++ host ++ ":" ++ decimalRepr p).data =
          ['h', 't', 't', 'p', 's'] ++ ':' ::
            ('/' :: '/' :: (host.data ++ ':' :: (decimalRepr p).data)) := by
        rw [String.data_append, String.data_append, String.data_append,
          show ("https://" : String).data = ['h','t','t','p','s',':','/','/'] from rfl,
          show (":" : String).data = [':'] from rfl]
        simp
      rw [websocketUrl, parseServerUrl_port _ _ host p (by decide) hne hhost hple hU]
      dsimp only
      rw [if_pos (show lowerString ⟨['h','t','t','p','s']⟩ = "https" from rfl),
        if_pos (show p ≠ 0 by omega)]
      apply congrArg some
      apply String.ext
      simp only [String.data_append, List.append_assoc,
        show ("wss" : String).data = ['w','s','s'] from rfl,
        show ("wss://" : String).data = ['w','s','s',':','/','/'] from rfl,
        show ("://" : String).data = [':','/','/'] from rfl,
        show (":" : String).data = [':'] from rfl,
        List.cons_append, List.nil_append]
    · have hU : ("http://" ++ host ++ ":" ++ decimalRepr p).data =
          ['h', 't', 't', 'p'] ++ ':' ::
            ('/' :: '/' :: (host.data ++ ':' :: (decimalRepr p).data)) := by
        rw [String.data_append, String.data_append, String.data_append,
          show ("http://" : String).data = ['h','t','t','p',':','/','/'] from rfl,
          show (":" : String).data = [':'] from rfl]
        simp
      rw [websocketUrl, parseServerUrl_port _ _ host p (by decide) hne hhost hple hU]
      dsimp only
      rw [if_neg (show ¬lowerString ⟨['h','t','t','p']⟩ = "https" by decide),
        if_pos (show p ≠ 0 by omega)]
      apply congrArg some
      apply String.ext
      simp only [String.data_append, List.append_assoc,
        show ("ws" : String).data = ['w','s'] from rfl,
        show ("ws://" : String).data = ['w','s',':','/','/'] from rfl,
        show ("://" : String).data = [':','/','/'] from rfl,
        show (":" : String).data = [':'] from rfl,
        List.cons_append, List.nil_append]
  · intro host hne hhost
    constructor
    · have hU : ("https://" ++ host).data =
          ['h', 't', 't', 'p', 's'] ++ ':' :: ('/' :: '/' :: host.data) := by
        rw [String.data_append,
          show ("https://" : String).data = ['h','t','t','p','s',':','/','/'] from rfl]
        simp
      rw [websocketUrl, parseServerUrl_noport _ _ host (by decide) hne hhost hU]
      dsimp only
      rw [if_pos (show lowerString ⟨['h','t','t','p','s']⟩ = "https" from rfl)]
      apply congrArg some
      apply String.ext
      simp only [String.data_append, List.append_assoc,
        show ("wss" : String).data = ['w','s','s'] from rfl,
        show ("wss://" : String).data = ['w','s','s',':','/','/'] from rfl,
        show ("://" : String).data = [':','/','/'] from rfl,
        show ("" : String).data = ([] : List Char) from rfl,
        List.cons_append, List.nil_append, List.append_nil]
    · have hU : ("http://" ++ host).data =
          ['h', 't', 't', 'p'] ++ ':' :: ('/' :: '/' :: host.data) := by
        rw [String.data_append,
          show ("http://" : String).data = ['h','t','t','p',':','/','/'] from rfl]
        simp
      rw [websocketUrl, parseServerUrl_noport _ _ host (by decide) hne hhost hU]
      dsimp only
      rw [if_neg (show ¬lowerString ⟨['h','t','t','p']⟩ = "https" by decide)]
      apply congrArg some
      apply String.ext
      simp only [String.data_append, List.append_assoc,
        show ("ws" : String).data = ['w','s'] from rfl,
        show ("ws://" : String).data = ['w','s',':','/','/'] from rfl,
        show ("://" : String).data = [':','/','/'] from rfl,
        show ("" : String).data = ([] : List Char) from rfl,
        List.cons_append, List.nil_append, List.append_nil]

/-- Witness for c7_websocket_url_amended at the scenario URL host.example
with port 8443. -/
theorem c7_witness :
    ("host.example" : String).data ≠ [] ∧ (0 : Nat) < 8443 ∧ (8443 : Nat) ≤ 65535 ∧
    websocketUrl ("https://" ++ "host.example" ++ ":" ++ decimalRepr 8443) =
      some ("wss://" ++ lowerString "host.example" ++ ":" ++ decimalRepr 8443 ++
        "/socket/websocket") :=
  ⟨by decide, by decide, by decide,
   (c7_websocket_url_amended.1 "host.example" 8443 (by decide) (by decide)
     (by decide) (by decide)).1⟩

/-- Witness for c9_roundtrip at a concrete well-formed reply frame. -/
theorem c9_witness :
    ∃ (m : PhoenixMessage) (l l2 : List (String × JValue)),
      fromJsonV c9Frame = some m ∧ c9Frame = .obj l ∧ m.toJson = .obj l2 ∧ l2.Perm l :=
  c9_roundtrip c9Frame
    ⟨[("topic", .str "sensocto:sensor:s1"), ("event", .str "phx_reply"),
      ("payload", .obj [("status", .str "ok")]), ("ref", .str "1")],
     "sensocto:sensor:s1", "phx_reply", .obj [("status", .str "ok")], .str "1",
     rfl, Or.inr ⟨"1", rfl⟩, List.Perm.refl _⟩

end Sensocto
